import Mathlib

/-!
Verification of the medication-recommendation backend (`backend_app.py`,
`train_model.py`), a Flask service that serves a trained complication
classifier and a complication→medication lookup.

The embedding models JSON payloads, Python's `str.lower`/`str.upper` on the
code points this development exercises (the ASCII letters, plus the dotless
ı of U+0131 whose uppercase form is I), the substring operator `in`, the
lookup table, the resolver `recommend_from_complication`, the coercion
helper `validate_and_build_df`, and the three POST handlers `/predict`,
`/recommend`, `/predict_recommend`.  The classifier itself is an opaque
artifact loaded from disk, so it appears as a parameter (`Model`) whose
`predict`/`predict_proba` behaviour is quantified over or constrained by
explicit hypotheses.
-/

namespace MedBackend

/-- A JSON value, as decoded by Flask's `request.get_json()`.  Objects are
association lists with distinct keys (Python's `json.loads` yields a `dict`);
numbers are modelled as integers, which is enough for every claim. -/
inductive Json where
  | null : Json
  | boolVal : Bool → Json
  | num : Int → Json
  | str : String → Json
  | arr : List Json → Json
  | obj : List (String × Json) → Json
deriving Repr, BEq

/-- Python's per-character lowering on the code points this development
exercises: the ASCII letters are mapped, every other character is left
fixed.  Python's full Unicode lowering moves further characters (İ, U+0130,
even lowers to a two-character sequence), so universal statements drawn from
this map are restricted to ASCII strings. -/
def lowerChar (c : Char) : Char :=
  if h : 65 ≤ c.toNat ∧ c.toNat ≤ 90 then
    Char.ofNatAux (c.toNat + 32) (Or.inl (by omega))
  else c

/-- Python's per-character raising on the code points this development
exercises: the ASCII letters are mapped, and dotless ı (U+0131) maps to I —
Python's actual behaviour, which falsifies unrestricted case-insensitivity
of the resolver.  Every other character is left fixed; Python's full
Unicode raising moves further characters (ß even raises to the
two-character SS), so universal statements drawn from this map are
restricted to ASCII strings. -/
def upperChar (c : Char) : Char :=
  if h : 97 ≤ c.toNat ∧ c.toNat ≤ 122 then
    Char.ofNatAux (c.toNat - 32) (Or.inl (by omega))
  else if c.toNat = 0x131 then 'I'
  else c

/-- Python `s.lower()` under `lowerChar`. -/
def strLower (s : String) : String := ⟨s.data.map lowerChar⟩

/-- Python `s.upper()` under `upperChar`. -/
def strUpper (s : String) : String := ⟨s.data.map upperChar⟩

/-- Does `needle` occur at the head of `haystack`? -/
def headMatch : List Char → List Char → Bool
  | [], _ => true
  | _ :: _, [] => false
  | a :: as, b :: bs => a == b && headMatch as bs

/-- Does `needle` occur anywhere in `haystack`? -/
def subMatch (needle : List Char) : List Char → Bool
  | [] => headMatch needle []
  | c :: cs => headMatch needle (c :: cs) || subMatch needle cs

/-- Python's substring operator: `needle in haystack`. -/
def strContains (haystack needle : String) : Bool :=
  subMatch needle.data haystack.data

/-- One row of the medication map (`med_map_df`): columns
`Complication, Recommended_Medication, Dosage, Duration`. -/
structure MedRow where
  complication : String
  recommendedMedication : String
  dosage : String
  duration : String
deriving Repr, DecidableEq

/-- The recommendation object built by `recommend_from_complication`:
`Recommended_Medication`, `Dosage`, `Duration`, `Source`. -/
structure Recommendation where
  recommendedMedication : String
  dosage : String
  duration : String
  source : String
deriving Repr, DecidableEq

/-- The built-in four-row fallback map installed when `medication_map.csv`
is absent (`backend_app.py` lines 26-31).  The repository ships no CSV, so
this is the table the service actually loads. -/
def fallback_med_map : List MedRow :=
  [⟨"Infection", "Antibiotics", "500 mg/day", "7 days"⟩,
   ⟨"Bleeding", "Blood Transfusion + Hemostatic Agent", "2 units", "1 days"⟩,
   ⟨"Organ Failure", "IV Fluids + Vasopressors", "2 L/day", "5 days"⟩,
   ⟨"None", "Pain Management", "100 mg/day", "1 days"⟩]

/-- The pandas filter `med_map_df[med_map_df['Complication'].str.lower() ==
str(complication).lower()]` followed by `row.iloc[0]`: the first row whose
lowered `Complication` equals the lowered query. -/
def tableMatch (medMap : List MedRow) (lc : String) : Option MedRow :=
  medMap.find? (fun r => strLower r.complication == lc)

/-- Body of `recommend_from_complication` after the query has been lowered
(the source lowers it once for the table filter, line 51, and recomputes the
same value `comp` for the keyword rules, line 61). -/
def recommendCore (medMap : List MedRow) (lc : String) : Recommendation :=
  match tableMatch medMap lc with
  | some r => ⟨r.recommendedMedication, r.dosage, r.duration, "medication_map.csv"⟩
  | none =>
    if strContains lc "infect" then
      ⟨"Antibiotics", "500 mg/day", "7 days", "rule"⟩
    else if strContains lc "bleed" then
      ⟨"Blood Transfusion + Hemostatic Agent", "2 units", "1 days", "rule"⟩
    else if strContains lc "organ" || strContains lc "failure" then
      ⟨"IV Fluids + Vasopressors", "2 L/day", "5 days", "rule"⟩
    else
      ⟨"Pain Management", "100 mg/day", "1 days", "rule"⟩

/-- `recommend_from_complication` (`backend_app.py` lines 48-69), parametric
in the loaded medication map. -/
def recommend_from_complication (medMap : List MedRow) (complication : String) :
    Recommendation :=
  recommendCore medMap (strLower complication)

/-- Python truthiness (`if not payload`) on a decoded JSON value: `None`,
`False`, `0`, `""`, `[]` and an empty dict are falsy. -/
def jsonFalsy : Json → Bool
  | .null => true
  | .boolVal b => !b
  | .num n => n == 0
  | .str s => s.isEmpty
  | .arr l => l.isEmpty
  | .obj kvs => kvs.isEmpty

/-- Dict lookup `kvs[k]` on a decoded JSON object (keys are distinct). -/
def jsonGet (kvs : List (String × Json)) (k : String) : Option Json :=
  (kvs.find? (fun p => p.1 == k)).map Prod.snd

/-- Python `str()` applied to a decoded JSON value, as used by
`recommend_from_complication`'s `str(complication)`.  The scalar cases are
exact; the rendering of containers (Python dict/list repr) is abbreviated —
no claim depends on it, every claim passes a string label. -/
def pyStr : Json → String
  | .str s => s
  | .num n => toString n
  | .boolVal b => cond b "True" "False"
  | .null => "None"
  | .arr _ => "[...]"
  | .obj _ => "\x7b...\x7d"

/-- `EXPECTED_FEATURES` (`backend_app.py` lines 40-44): the 15 feature
columns in training order. -/
def EXPECTED_FEATURES : List String :=
  ["Age", "Gender", "BMI", "ASA_Score", "Diabetes", "Hypertension",
   "Heart_Disease", "Preop_Hb", "Preop_WBC", "Surgery_Type", "Duration_Min",
   "Blood_Loss_ml", "Vital_Instability", "Postop_Hb", "Postop_WBC"]

/-- One row of the coerced DataFrame: each expected column paired with its
value, `none` standing for the `None`/NaN filler of a missing field. -/
abbrev Row := List (String × Option Json)

/-- The named fields a record contributes to `pd.DataFrame(records)`: the
key/value pairs of an object; a non-object element contributes no named
column (pandas gives such rows only the positional column `0`, which the
subsequent `df[EXPECTED_FEATURES]` selection drops). -/
def recordFields : Json → List (String × Json)
  | .obj kvs => kvs
  | _ => []

/-- The row the coercion produces for one record: the loop
`for col in EXPECTED_FEATURES: if col not in df.columns: df[col] = None`
followed by `df = df[EXPECTED_FEATURES].copy()` — every expected column in
training order, missing ones filled with the null marker, extra input keys
dropped. -/
def buildRow (kvs : List (String × Json)) : Row :=
  EXPECTED_FEATURES.map (fun c => (c, jsonGet kvs c))

/-- `validate_and_build_df` (`backend_app.py` lines 71-88): a dict becomes a
one-row frame, a list becomes one row per element, anything else raises
`ValueError`. -/
def validate_and_build_df (payload : Json) : Except String (List Row) :=
  match payload with
  | .obj kvs => .ok [buildRow kvs]
  | .arr xs => .ok (xs.map (fun x => buildRow (recordFields x)))
  | _ => .error "Payload must be a JSON object or array of objects."

/-- The deserialized pipeline, opaque to the service: `predict` may raise
(`Except.error`), `predict_proba` either yields a matrix or raises (`none`,
absorbed by the inner `try`), and `classes` is `list(model.classes_)` —
empty when the attribute is missing. -/
structure Model where
  predict : List Row → Except String (List String)
  predict_proba : List Row → Option (List (List Rat))
  classes : List String

/-- The `Probabilities` field of one prediction entry:
`dict(zip(classes, probs[i])) if classes else probs[i]`. -/
inductive Probs where
  | byClass : List (String × Rat) → Probs
  | bare : List Rat → Probs
deriving Repr, DecidableEq

/-- `dict(zip(classes, row)) if classes else row`. -/
def zipProbs (classes : List String) (row : List Rat) : Probs :=
  if classes.isEmpty then .bare row else .byClass (classes.zip row)

/-- One element of the `/predict` `predictions` list. -/
structure PredEntry where
  complication : String
  probabilities : Option Probs
deriving Repr, DecidableEq

/-- The result-assembly loop of `predict` (`backend_app.py` lines 110-117):
entry `i` is `str(preds[i])` plus, when `predict_proba` succeeded,
`probs[i]` — an out-of-range index there raises, turning the whole request
into an error response. -/
def buildPredEntries (classes : List String) (probs : Option (List (List Rat))) :
    Nat → List String → Except String (List PredEntry)
  | _, [] => .ok []
  | i, p :: ps =>
    match probs with
    | none =>
      match buildPredEntries classes none (i + 1) ps with
      | .ok rest => .ok (⟨p, none⟩ :: rest)
      | .error e => .error e
    | some table =>
      match table.get? i with
      | none => .error "list index out of range"
      | some row =>
        match buildPredEntries classes (some table) (i + 1) ps with
        | .ok rest => .ok (⟨p, some (zipProbs classes row)⟩ :: rest)
        | .error e => .error e

/-- Response of `/predict`: `(jsonify(...), 200)` or `(jsonify(...), 400)`. -/
inductive PredictResponse where
  | ok : List PredEntry → PredictResponse
  | err : String → PredictResponse
deriving Repr, DecidableEq

/-- HTTP status code of a `/predict` response. -/
def PredictResponse.statusCode : PredictResponse → Nat
  | .ok _ => 200
  | .err _ => 400

/-- The `/predict` handler (`backend_app.py` lines 90-120): coerce, predict,
best-effort `predict_proba`, assemble entries; every exception becomes the
400 error response of the surrounding `try`/`except`.  The `trace` field of
the error JSON is `traceback.format_exc()`, runtime introspection carried
alongside the message and not modelled separately. -/
def predictEndpoint (m : Model) (payload : Json) : PredictResponse :=
  match validate_and_build_df payload with
  | .error e => .err e
  | .ok df =>
    match m.predict df with
    | .error e => .err e
    | .ok preds =>
      match buildPredEntries m.classes (m.predict_proba df) 0 preds with
      | .error e => .err e
      | .ok entries => .ok entries

/-- Response of `/recommend`: direct resolution of a supplied label, a
prediction-driven list, or the 400 error response. -/
inductive RecResponse where
  | okSingle : Json → Recommendation → RecResponse
  | okList : List (String × Recommendation) → RecResponse
  | err : String → RecResponse
deriving Repr

/-- HTTP status code of a `/recommend` response. -/
def RecResponse.statusCode : RecResponse → Nat
  | .okSingle _ _ => 200
  | .okList _ => 200
  | .err _ => 400

/-- The test `isinstance(payload, dict) and "Complication" in payload`,
returning the value `payload["Complication"]` when it succeeds. -/
def complicationKey : Json → Option Json
  | .obj kvs => jsonGet kvs "Complication"
  | _ => none

/-- The `/recommend` handler (`backend_app.py` lines 122-147): reject falsy
bodies with `ValueError("Empty request body")`; a dict carrying a
`Complication` key is resolved directly, skipping the model; otherwise
coerce, predict, and resolve each predicted label. -/
def recommendEndpoint (medMap : List MedRow) (m : Model) (payload : Json) :
    RecResponse :=
  if jsonFalsy payload then .err "Empty request body"
  else
    match complicationKey payload with
    | some v => .okSingle v (recommend_from_complication medMap (pyStr v))
    | none =>
      match validate_and_build_df payload with
      | .error e => .err e
      | .ok df =>
        match m.predict df with
        | .error e => .err e
        | .ok preds =>
          .okList (preds.map (fun p => (p, recommend_from_complication medMap p)))

/-- One element of the `/predict_recommend` `results` list. -/
structure PREntry where
  complication : String
  recommendation : Recommendation
  probabilities : Option Probs
deriving Repr, DecidableEq

/-- The result-assembly loop of `predict_recommend` (`backend_app.py` lines
163-171): entry `i` is `str(preds[i])`, its resolved recommendation, and —
when `predict_proba` succeeded — `probs[i]`. -/
def buildPREntries (medMap : List MedRow) (classes : List String)
    (probs : Option (List (List Rat))) :
    Nat → List String → Except String (List PREntry)
  | _, [] => .ok []
  | i, p :: ps =>
    match probs with
    | none =>
      match buildPREntries medMap classes none (i + 1) ps with
      | .ok rest => .ok (⟨p, recommend_from_complication medMap p, none⟩ :: rest)
      | .error e => .error e
    | some table =>
      match table.get? i with
      | none => .error "list index out of range"
      | some row =>
        match buildPREntries medMap classes (some table) (i + 1) ps with
        | .ok rest =>
          .ok (⟨p, recommend_from_complication medMap p,
                some (zipProbs classes row)⟩ :: rest)
        | .error e => .error e

/-- Response of `/predict_recommend`. -/
inductive PRResponse where
  | ok : List PREntry → PRResponse
  | err : String → PRResponse
deriving Repr, DecidableEq

/-- HTTP status code of a `/predict_recommend` response. -/
def PRResponse.statusCode : PRResponse → Nat
  | .ok _ => 200
  | .err _ => 400

/-- The `/predict_recommend` handler (`backend_app.py` lines 149-174):
always coerces and predicts, then resolves every predicted label, attaching
probabilities when available. -/
def predictRecommendEndpoint (medMap : List MedRow) (m : Model)
    (payload : Json) : PRResponse :=
  match validate_and_build_df payload with
  | .error e => .err e
  | .ok df =>
    match m.predict df with
    | .error e => .err e
    | .ok preds =>
      match buildPREntries medMap m.classes (m.predict_proba df) 0 preds with
      | .error e => .err e
      | .ok entries => .ok entries

/-- True of a JSON body that is neither an object nor an array — the shapes
`validate_and_build_df` rejects with `ValueError`. -/
def nonTabular : Json → Bool
  | .obj _ => false
  | .arr _ => false
  | _ => true

/-- A concrete stand-in pipeline, used only to instantiate the endpoint
theorems at closed inputs: it predicts "Infection" for every row, has no
working probability interface, and carries no class list. -/
def demoModel : Model where
  predict := fun df => .ok (df.map (fun _ => "Infection"))
  predict_proba := fun _ => none
  classes := []

theorem toNat_ofNatAux {n : Nat} (h : n.isValidChar) :
    (Char.ofNatAux n h).toNat = n := rfl

theorem char_eq_of_toNat_eq {c d : Char} (h : c.toNat = d.toNat) : c = d :=
  Char.eq_of_val_eq (UInt32.ext h)

theorem lowerChar_toNat_of_upper {c : Char} (h : 65 ≤ c.toNat ∧ c.toNat ≤ 90) :
    (lowerChar c).toNat = c.toNat + 32 := by
  unfold lowerChar
  rw [dif_pos h]
  exact toNat_ofNatAux _

theorem lowerChar_of_not_upper {c : Char} (h : ¬(65 ≤ c.toNat ∧ c.toNat ≤ 90)) :
    lowerChar c = c := by
  unfold lowerChar
  rw [dif_neg h]

theorem upperChar_toNat_of_lower {c : Char} (h : 97 ≤ c.toNat ∧ c.toNat ≤ 122) :
    (upperChar c).toNat = c.toNat - 32 := by
  unfold upperChar
  rw [dif_pos h]
  exact toNat_ofNatAux _

theorem upperChar_of_not_lower {c : Char} (h : ¬(97 ≤ c.toNat ∧ c.toNat ≤ 122))
    (h2 : c.toNat ≠ 0x131) :
    upperChar c = c := by
  unfold upperChar
  rw [dif_neg h, if_neg h2]

theorem lowerChar_lowerChar (c : Char) : lowerChar (lowerChar c) = lowerChar c := by
  by_cases h : 65 ≤ c.toNat ∧ c.toNat ≤ 90
  · have ht := lowerChar_toNat_of_upper h
    exact lowerChar_of_not_upper (by omega)
  · simp only [lowerChar_of_not_upper h]

theorem lowerChar_upperChar {c : Char} (hc : c.toNat < 128) :
    lowerChar (upperChar c) = lowerChar c := by
  by_cases h : 97 ≤ c.toNat ∧ c.toNat ≤ 122
  · have ht := upperChar_toNat_of_lower h
    have h1 : lowerChar (upperChar c) = lowerChar (upperChar c) := rfl
    have h2 : (lowerChar (upperChar c)).toNat = (upperChar c).toNat + 32 :=
      lowerChar_toNat_of_upper (by omega)
    have h3 : lowerChar c = c := lowerChar_of_not_upper (by omega)
    rw [h3]
    exact char_eq_of_toNat_eq (by omega)
  · rw [upperChar_of_not_lower h (by omega)]

theorem strLower_strLower (s : String) : strLower (strLower s) = strLower s := by
  simp only [strLower, List.map_map]
  congr 1
  exact List.map_congr_left fun c _ => lowerChar_lowerChar c

theorem strLower_strUpper (s : String) (hs : ∀ c ∈ s.data, c.toNat < 128) :
    strLower (strUpper s) = strLower s := by
  simp only [strLower, strUpper, List.map_map]
  congr 1
  exact List.map_congr_left fun c hc => lowerChar_upperChar (hs c hc)

theorem tableMatch_eq_none (medMap : List MedRow) (lc : String)
    (h : ∀ row ∈ medMap, strLower row.complication ≠ lc) :
    tableMatch medMap lc = none := by
  rw [tableMatch, List.find?_eq_none]
  intro r hr
  simpa using h r hr

theorem recommendCore_of_some {medMap : List MedRow} {lc : String} {r : MedRow}
    (h : tableMatch medMap lc = some r) :
    recommendCore medMap lc =
      ⟨r.recommendedMedication, r.dosage, r.duration, "medication_map.csv"⟩ := by
  unfold recommendCore
  rw [h]

theorem recommendCore_source_of_none {medMap : List MedRow} {lc : String}
    (h : tableMatch medMap lc = none) :
    (recommendCore medMap lc).source = "rule" := by
  unfold recommendCore
  rw [h]
  split_ifs <;> rfl

theorem buildRow_columns (kvs : List (String × Json)) :
    (buildRow kvs).map Prod.fst = EXPECTED_FEATURES := by
  unfold buildRow
  rw [List.map_map]
  exact (List.map_congr_left fun a _ => rfl).trans (List.map_id _)

theorem buildPredEntries_nones (cls : List String) (i : Nat) (preds : List String) :
    buildPredEntries cls none i preds =
      .ok (preds.map fun p => ⟨p, none⟩) := by
  induction preds generalizing i with
  | nil => rfl
  | cons p ps ih => simp [buildPredEntries, ih]

theorem buildPREntries_nones (medMap : List MedRow) (cls : List String)
    (i : Nat) (preds : List String) :
    buildPREntries medMap cls none i preds =
      .ok (preds.map fun p =>
        ⟨p, recommend_from_complication medMap p, none⟩) := by
  induction preds generalizing i with
  | nil => rfl
  | cons p ps ih => simp [buildPREntries, ih]

theorem buildPredEntries_somes (cls : List String) (tbl : List (List Rat))
    (preds : List String) (i : Nat) (h : i + preds.length ≤ tbl.length) :
    ∃ out, buildPredEntries cls (some tbl) i preds = .ok out ∧
      out.length = preds.length ∧
      ∀ j (h1 : j < out.length) (h2 : j < preds.length),
        (out.get ⟨j, h1⟩).complication = preds.get ⟨j, h2⟩ := by
  induction preds generalizing i with
  | nil => exact ⟨[], rfl, rfl, fun j h1 _ => absurd h1 (by simp)⟩
  | cons p ps ih =>
    have hi : i < tbl.length := by simp at h; omega
    obtain ⟨out, hout, hl, hidx⟩ := ih (i + 1) (by simp at h ⊢; omega)
    refine ⟨⟨p, some (zipProbs cls (tbl.get ⟨i, hi⟩))⟩ :: out, ?_,
      by simp [hl], ?_⟩
    · simp [buildPredEntries, hout, List.getElem?_eq_getElem hi]
    · intro j h1 h2
      cases j with
      | zero => rfl
      | succ j => exact hidx j (by simpa using h1) (by simpa using h2)

theorem buildPREntries_somes (medMap : List MedRow) (cls : List String)
    (tbl : List (List Rat)) (preds : List String) (i : Nat)
    (h : i + preds.length ≤ tbl.length) :
    ∃ out, buildPREntries medMap cls (some tbl) i preds = .ok out ∧
      out.length = preds.length ∧
      ∀ j (h1 : j < out.length) (h2 : j < preds.length),
        (out.get ⟨j, h1⟩).complication = preds.get ⟨j, h2⟩ ∧
        (out.get ⟨j, h1⟩).recommendation =
          recommend_from_complication medMap (preds.get ⟨j, h2⟩) := by
  induction preds generalizing i with
  | nil => exact ⟨[], rfl, rfl, fun j h1 _ => absurd h1 (by simp)⟩
  | cons p ps ih =>
    have hi : i < tbl.length := by simp at h; omega
    obtain ⟨out, hout, hl, hidx⟩ := ih (i + 1) (by simp at h ⊢; omega)
    refine ⟨⟨p, recommend_from_complication medMap p,
      some (zipProbs cls (tbl.get ⟨i, hi⟩))⟩ :: out, ?_, by simp [hl], ?_⟩
    · simp [buildPREntries, hout, List.getElem?_eq_getElem hi]
    · intro j h1 h2
      cases j with
      | zero => exact ⟨rfl, rfl⟩
      | succ j => exact hidx j (by simpa using h1) (by simpa using h2)

/-- C1: resolving a complication string is a total function — every string,
including unrecognized ones and the literal label "None", yields exactly one
recommendation object, produced either by the table match or, when the table
misses, by the keyword/default rules — and resolution is deterministic:
equal strings yield equal recommendation objects. -/
theorem resolution_total_and_deterministic (medMap : List MedRow) (s : String) :
    (∃! r : Recommendation, recommend_from_complication medMap s = r) ∧
    (∀ t : String, t = s →
      recommend_from_complication medMap t = recommend_from_complication medMap s) ∧
    ((∃ row : MedRow, tableMatch medMap (strLower s) = some row ∧
        recommend_from_complication medMap s =
          ⟨row.recommendedMedication, row.dosage, row.duration, "medication_map.csv"⟩) ∨
      (tableMatch medMap (strLower s) = none ∧
        (recommend_from_complication medMap s).source = "rule")) := by
  refine ⟨⟨recommend_from_complication medMap s, rfl, fun y hy => hy.symm⟩,
    fun t ht => by rw [ht], ?_⟩
  cases h : tableMatch medMap (strLower s) with
  | none => exact Or.inr ⟨rfl, recommendCore_source_of_none h⟩
  | some r => exact Or.inl ⟨r, rfl, recommendCore_of_some h⟩

/-- Witness for C1 at the literal label "None" and the built-in table. -/
theorem resolution_total_and_deterministic_witness :
    (∃! r : Recommendation,
      recommend_from_complication fallback_med_map "None" = r) ∧
    recommend_from_complication fallback_med_map "None" =
      recommend_from_complication fallback_med_map "None" :=
  ⟨(resolution_total_and_deterministic fallback_med_map "None").1,
   (resolution_total_and_deterministic fallback_med_map "None").2.1 "None" rfl⟩

/-- C2: when the table has no case-insensitive exact match, the keyword
buckets apply in the fixed order "infect", "bleed", "organ"-or-"failure",
first match winning (a label containing both "infect" and "bleed" gets the
antibiotics bucket, since the first conjunct needs no exclusion of "bleed"),
with the values Antibiotics / 500 mg/day / 7 days, Blood Transfusion +
Hemostatic Agent / 2 units / 1 days, and IV Fluids + Vasopressors /
2 L/day / 5 days. -/
theorem keyword_bucket_order (medMap : List MedRow) (s : String)
    (hnm : ∀ row ∈ medMap, strLower row.complication ≠ strLower s) :
    (strContains (strLower s) "infect" = true →
      recommend_from_complication medMap s =
        ⟨"Antibiotics", "500 mg/day", "7 days", "rule"⟩) ∧
    (strContains (strLower s) "infect" = false →
      strContains (strLower s) "bleed" = true →
      recommend_from_complication medMap s =
        ⟨"Blood Transfusion + Hemostatic Agent", "2 units", "1 days", "rule"⟩) ∧
    (strContains (strLower s) "infect" = false →
      strContains (strLower s) "bleed" = false →
      (strContains (strLower s) "organ" || strContains (strLower s) "failure") = true →
      recommend_from_complication medMap s =
        ⟨"IV Fluids + Vasopressors", "2 L/day", "5 days", "rule"⟩) := by
  have ht : tableMatch medMap (strLower s) = none := tableMatch_eq_none _ _ hnm
  refine ⟨fun h1 => ?_, fun h1 h2 => ?_, fun h1 h2 h3 => ?_⟩ <;>
    · show recommendCore medMap (strLower s) = _
      unfold recommendCore
      rw [ht]
      simp_all

/-- Witness for C2: "infect and bleed" misses the built-in table, contains
both "infect" and "bleed", and gets the antibiotics bucket. -/
theorem keyword_bucket_order_witness :
    (∀ row ∈ fallback_med_map,
      strLower row.complication ≠ strLower "infect and bleed") ∧
    strContains (strLower "infect and bleed") "infect" = true ∧
    strContains (strLower "infect and bleed") "bleed" = true ∧
    recommend_from_complication fallback_med_map "infect and bleed" =
      ⟨"Antibiotics", "500 mg/day", "7 days", "rule"⟩ :=
  ⟨by decide, by decide, by decide,
   (keyword_bucket_order fallback_med_map "infect and bleed" (by decide)).1 (by decide)⟩

/-- C3: a string with no table match and none of the four keyword substrings
— such as "XYZ-unknown" — resolves to the generic default
Pain Management / 100 mg/day / 1 days with Source "rule". -/
theorem generic_default_bucket (medMap : List MedRow) (s : String)
    (hnm : ∀ row ∈ medMap, strLower row.complication ≠ strLower s)
    (h1 : strContains (strLower s) "infect" = false)
    (h2 : strContains (strLower s) "bleed" = false)
    (h3 : strContains (strLower s) "organ" = false)
    (h4 : strContains (strLower s) "failure" = false) :
    recommend_from_complication medMap s =
      ⟨"Pain Management", "100 mg/day", "1 days", "rule"⟩ := by
  have ht : tableMatch medMap (strLower s) = none := tableMatch_eq_none _ _ hnm
  show recommendCore medMap (strLower s) = _
  unfold recommendCore
  rw [ht]
  simp [h1, h2, h3, h4]

/-- Witness for C3 at the spec's own example label "XYZ-unknown". -/
theorem generic_default_bucket_witness :
    (∀ row ∈ fallback_med_map,
      strLower row.complication ≠ strLower "XYZ-unknown") ∧
    recommend_from_complication fallback_med_map "XYZ-unknown" =
      ⟨"Pain Management", "100 mg/day", "1 days", "rule"⟩ :=
  ⟨by decide,
   generic_default_bucket fallback_med_map "XYZ-unknown" (by decide)
     (by decide) (by decide) (by decide) (by decide)⟩

/-- C4 counterexample: Python's upper maps dotless ı (U+0131) to I, so
"ınfect" resolves to the generic default (its lowering contains no keyword)
while its uppercase form "INFECT" resolves to the antibiotics bucket — the
claim, unrestricted over all strings, fails at "ınfect". -/
theorem case_insensitivity_cex :
    strUpper "ınfect" = "INFECT" ∧
    recommend_from_complication fallback_med_map "ınfect" =
      ⟨"Pain Management", "100 mg/day", "1 days", "rule"⟩ ∧
    recommend_from_complication fallback_med_map (strUpper "ınfect") =
      ⟨"Antibiotics", "500 mg/day", "7 days", "rule"⟩ ∧
    recommend_from_complication fallback_med_map (strUpper "ınfect") ≠
      recommend_from_complication fallback_med_map "ınfect" := by
  refine ⟨?_, ?_, ?_, ?_⟩ <;> decide

/-- C4 (amended): resolution is case-insensitive on ASCII strings — an ASCII
string, its lowercase form, and its uppercase form resolve to identical
recommendation objects; in particular "INFECTION", "infection" and
"Infection" agree.  Python's Unicode case maps falsify the unrestricted
claim, as the counterexample at "ınfect" shows. -/
theorem resolution_case_insensitive_ascii (medMap : List MedRow) (s : String)
    (hs : ∀ c ∈ s.data, c.toNat < 128) :
    recommend_from_complication medMap (strLower s) =
      recommend_from_complication medMap s ∧
    recommend_from_complication medMap (strUpper s) =
      recommend_from_complication medMap s ∧
    recommend_from_complication medMap "INFECTION" =
      recommend_from_complication medMap "infection" ∧
    recommend_from_complication medMap "Infection" =
      recommend_from_complication medMap "infection" := by
  refine ⟨?_, ?_, ?_, ?_⟩
  · show recommendCore medMap (strLower (strLower s)) =
      recommendCore medMap (strLower s)
    rw [strLower_strLower]
  · show recommendCore medMap (strLower (strUpper s)) =
      recommendCore medMap (strLower s)
    rw [strLower_strUpper s hs]
  · show recommendCore medMap (strLower "INFECTION") =
      recommendCore medMap (strLower "infection")
    congr 1
  · show recommendCore medMap (strLower "Infection") =
      recommendCore medMap (strLower "infection")
    congr 1

/-- Witness for the amended C4 at the ASCII string "Bleeding". -/
theorem resolution_case_insensitive_ascii_witness :
    (∀ c ∈ ("Bleeding" : String).data, c.toNat < 128) ∧
    recommend_from_complication fallback_med_map (strUpper "Bleeding") =
      recommend_from_complication fallback_med_map "Bleeding" :=
  ⟨by decide,
   (resolution_case_insensitive_ascii fallback_med_map "Bleeding" (by decide)).2.1⟩

/-- C9 counterexample: an exact table match carries the provenance tag
"medication_map.csv", not "table" — resolving "Infection" against the
built-in table refutes the claim's literal tag. -/
theorem table_provenance_cex :
    (recommend_from_complication fallback_med_map "Infection").source =
      "medication_map.csv" ∧
    (recommend_from_complication fallback_med_map "Infection").source ≠
      "table" := by
  constructor <;> decide

/-- C9 (amended): every recommendation carries a Source tag distinguishing
table-sourced from rule-sourced answers — a case-insensitive exact table
match carries "medication_map.csv" and every keyword or generic-default
fallback carries "rule", and the two tags differ. -/
theorem provenance_tags (medMap : List MedRow) (s : String) :
    ((∃ row ∈ medMap, strLower row.complication = strLower s) →
      (recommend_from_complication medMap s).source = "medication_map.csv") ∧
    ((∀ row ∈ medMap, strLower row.complication ≠ strLower s) →
      (recommend_from_complication medMap s).source = "rule") ∧
    ("medication_map.csv" : String) ≠ "rule" := by
  refine ⟨fun hmatch => ?_, fun hnm => ?_, by decide⟩
  · have hs : (tableMatch medMap (strLower s)).isSome := by
      rw [tableMatch, List.find?_isSome]
      obtain ⟨r, hr, he⟩ := hmatch
      exact ⟨r, hr, by simpa using he⟩
    obtain ⟨r', hr'⟩ := Option.isSome_iff_exists.mp hs
    have := recommendCore_of_some hr'
    show (recommendCore medMap (strLower s)).source = _
    rw [this]
  · exact recommendCore_source_of_none (tableMatch_eq_none _ _ hnm)

/-- Witness for the amended C9: "Infection" is table-sourced, "zzz" is
rule-sourced. -/
theorem provenance_tags_witness :
    (recommend_from_complication fallback_med_map "Infection").source =
      "medication_map.csv" ∧
    (recommend_from_complication fallback_med_map "zzz").source = "rule" :=
  ⟨(provenance_tags fallback_med_map "Infection").1
     ⟨⟨"Infection", "Antibiotics", "500 mg/day", "7 days"⟩, by decide, by decide⟩,
   (provenance_tags fallback_med_map "zzz").2.1 (by decide)⟩

/-- C5: `/recommend` dispatch — a non-falsy object body carrying a
"Complication" key is resolved directly and independently of the model
(prediction is never invoked), yielding the single-recommendation response;
any other non-falsy object or array body is predicted first, yielding one
(Complication, Recommendation) pair per predicted label. -/
theorem recommend_dispatch (medMap : List MedRow) (m m2 : Model)
    (payload : Json) :
    (∀ kvs v, payload = Json.obj kvs → jsonFalsy payload = false →
      jsonGet kvs "Complication" = some v →
      recommendEndpoint medMap m payload =
        .okSingle v (recommend_from_complication medMap (pyStr v)) ∧
      recommendEndpoint medMap m payload =
        recommendEndpoint medMap m2 payload) ∧
    (∀ df preds, jsonFalsy payload = false → complicationKey payload = none →
      validate_and_build_df payload = .ok df → m.predict df = .ok preds →
      recommendEndpoint medMap m payload =
        .okList (preds.map (fun p =>
          (p, recommend_from_complication medMap p)))) := by
  constructor
  · rintro kvs v rfl hf hv
    constructor <;> simp [recommendEndpoint, hf, complicationKey, hv]
  · intro df preds hf hck hdf hp
    simp [recommendEndpoint, hf, hck, hdf, hp]

/-- Witness for C5: a body with a Complication key skips the model; a
feature body is predicted first. -/
theorem recommend_dispatch_witness :
    recommendEndpoint fallback_med_map demoModel
        (Json.obj [("Complication", Json.str "Bleeding")]) =
      .okSingle (Json.str "Bleeding")
        (recommend_from_complication fallback_med_map "Bleeding") ∧
    recommendEndpoint fallback_med_map demoModel
        (Json.obj [("Age", Json.num 60)]) =
      .okList [("Infection",
        recommend_from_complication fallback_med_map "Infection")] := by
  constructor
  · exact ((recommend_dispatch fallback_med_map demoModel demoModel
      (Json.obj [("Complication", Json.str "Bleeding")])).1
      [("Complication", Json.str "Bleeding")] (Json.str "Bleeding")
      rfl rfl rfl).1
  · have h := (recommend_dispatch fallback_med_map demoModel demoModel
      (Json.obj [("Age", Json.num 60)])).2
      [buildRow [("Age", Json.num 60)]] ["Infection"] rfl rfl rfl rfl
    simpa using h

/-- C6: coercion accepts any single object or array of objects and returns a
frame whose every row carries exactly the 15 expected columns in training
order, regardless of input key order; an expected feature absent from a
record yields the null marker instead of a rejection. -/
theorem coercion_fixed_columns (payload : Json)
    (h : (∃ kvs, payload = Json.obj kvs) ∨
        (∃ xs, payload = Json.arr xs ∧ ∀ x ∈ xs, ∃ k, x = Json.obj k)) :
    (∃ df, validate_and_build_df payload = .ok df ∧
      ∀ row ∈ df, row.map Prod.fst = EXPECTED_FEATURES) ∧
    (∀ (kvs : List (String × Json)), ∀ c ∈ EXPECTED_FEATURES,
      (c, jsonGet kvs c) ∈ buildRow kvs ∧
      (jsonGet kvs c = none → (c, (none : Option Json)) ∈ buildRow kvs)) := by
  constructor
  · rcases h with ⟨kvs, rfl⟩ | ⟨xs, rfl, _⟩
    · exact ⟨[buildRow kvs], rfl, by simpa using buildRow_columns kvs⟩
    · refine ⟨_, rfl, ?_⟩
      intro row hrow
      simp only [List.mem_map] at hrow
      obtain ⟨x, _, rfl⟩ := hrow
      exact buildRow_columns _
  · intro kvs c hc
    have hmem : (c, jsonGet kvs c) ∈ buildRow kvs :=
      List.mem_map_of_mem (fun c => (c, jsonGet kvs c)) hc
    exact ⟨hmem, fun hn => hn ▸ hmem⟩

/-- Witness for C6: a record carrying only "Age" still coerces to the full
15-column row, with "Gender" filled by the null marker. -/
theorem coercion_fixed_columns_witness :
    validate_and_build_df (Json.obj [("Age", Json.num 60)]) =
      .ok [buildRow [("Age", Json.num 60)]] ∧
    (buildRow [("Age", Json.num 60)]).map Prod.fst = EXPECTED_FEATURES ∧
    ("Gender", (none : Option Json)) ∈ buildRow [("Age", Json.num 60)] := by
  obtain ⟨⟨df, hdf, hcols⟩, hnull⟩ :=
    coercion_fixed_columns (Json.obj [("Age", Json.num 60)]) (Or.inl ⟨_, rfl⟩)
  have h2 : Except.ok (ε := String) [buildRow [("Age", Json.num 60)]] =
      .ok df := hdf
  injection h2 with h3
  refine ⟨rfl, ?_, ?_⟩
  · exact hcols _ (h3 ▸ List.mem_singleton.mpr rfl)
  · exact ((hnull [("Age", Json.num 60)] "Gender" (by decide)).2 rfl)

/-- C7: for every array of N feature objects, `/predict` and
`/predict_recommend` succeed with exactly N result entries, in input order
(entry i carries prediction i and, for `/predict_recommend`, its resolved
recommendation), under the hypothesis that the model yields one prediction
per input row and — when it produces a probability matrix — at least one
probability row per prediction. -/
theorem batch_length_preserved (medMap : List MedRow) (m : Model)
    (xs : List Json) (preds : List String)
    (hobj : ∀ x ∈ xs, ∃ k, x = Json.obj k)
    (hp : m.predict (xs.map (fun x => buildRow (recordFields x))) = .ok preds)
    (hn : preds.length = xs.length)
    (hpr : ∀ tbl,
      m.predict_proba (xs.map (fun x => buildRow (recordFields x))) = some tbl →
      preds.length ≤ tbl.length) :
    (∃ entries, predictEndpoint m (Json.arr xs) = .ok entries ∧
      entries.length = xs.length ∧
      ∀ j (h1 : j < entries.length) (h2 : j < preds.length),
        (entries.get ⟨j, h1⟩).complication = preds.get ⟨j, h2⟩) ∧
    (∃ entries, predictRecommendEndpoint medMap m (Json.arr xs) = .ok entries ∧
      entries.length = xs.length ∧
      ∀ j (h1 : j < entries.length) (h2 : j < preds.length),
        (entries.get ⟨j, h1⟩).complication = preds.get ⟨j, h2⟩ ∧
        (entries.get ⟨j, h1⟩).recommendation =
          recommend_from_complication medMap (preds.get ⟨j, h2⟩)) := by
  constructor
  · cases hprob : m.predict_proba (xs.map (fun x => buildRow (recordFields x))) with
    | none =>
      refine ⟨preds.map (fun p => ⟨p, none⟩), ?_, by simp [hn], ?_⟩
      · simp [predictEndpoint, validate_and_build_df, hp, hprob,
          buildPredEntries_nones]
      · intro j h1 h2
        simp
    | some tbl =>
      obtain ⟨out, hout, hlen, hidx⟩ :=
        buildPredEntries_somes m.classes tbl preds 0
          (by simpa using hpr tbl hprob)
      refine ⟨out, ?_, by rw [hlen, hn], hidx⟩
      simp [predictEndpoint, validate_and_build_df, hp, hprob, hout]
  · cases hprob : m.predict_proba (xs.map (fun x => buildRow (recordFields x))) with
    | none =>
      refine ⟨preds.map (fun p =>
        ⟨p, recommend_from_complication medMap p, none⟩), ?_, by simp [hn], ?_⟩
      · simp [predictRecommendEndpoint, validate_and_build_df, hp, hprob,
          buildPREntries_nones]
      · intro j h1 h2
        constructor <;> simp
    | some tbl =>
      obtain ⟨out, hout, hlen, hidx⟩ :=
        buildPREntries_somes medMap m.classes tbl preds 0
          (by simpa using hpr tbl hprob)
      refine ⟨out, ?_, by rw [hlen, hn], hidx⟩
      simp [predictRecommendEndpoint, validate_and_build_df, hp, hprob, hout]

/-- Witness for C7: a two-element array yields exactly two entries on both
endpoints. -/
theorem batch_length_preserved_witness :
    predictEndpoint demoModel
        (Json.arr [Json.obj [("Age", Json.num 60)], Json.obj []]) =
      .ok [⟨"Infection", none⟩, ⟨"Infection", none⟩] ∧
    [(⟨"Infection", none⟩ : PredEntry), ⟨"Infection", none⟩].length = 2 ∧
    predictRecommendEndpoint fallback_med_map demoModel
        (Json.arr [Json.obj [("Age", Json.num 60)], Json.obj []]) =
      .ok [⟨"Infection",
            recommend_from_complication fallback_med_map "Infection", none⟩,
           ⟨"Infection",
            recommend_from_complication fallback_med_map "Infection", none⟩] := by
  obtain ⟨⟨e1, he1, hl1, _⟩, ⟨e2, he2, _, _⟩⟩ :=
    batch_length_preserved fallback_med_map demoModel
      [Json.obj [("Age", Json.num 60)], Json.obj []] ["Infection", "Infection"]
      (by intro x hx
          simp only [List.mem_cons, List.mem_singleton] at hx
          rcases hx with rfl | rfl | hx
          · exact ⟨_, rfl⟩
          · exact ⟨_, rfl⟩
          · cases hx)
      rfl rfl (by intro tbl h; exact absurd h (by simp [demoModel]))
  have hc1 : predictEndpoint demoModel
      (Json.arr [Json.obj [("Age", Json.num 60)], Json.obj []]) =
      .ok [⟨"Infection", none⟩, ⟨"Infection", none⟩] := by
    rw [he1]
    have h2 : PredictResponse.ok e1 =
        .ok [(⟨"Infection", none⟩ : PredEntry), ⟨"Infection", none⟩] :=
      he1.symm.trans (by simp [predictEndpoint, validate_and_build_df,
        demoModel, buildPredEntries_nones])
    exact h2
  refine ⟨hc1, ?_, ?_⟩
  · have h2 : e1 = [(⟨"Infection", none⟩ : PredEntry), ⟨"Infection", none⟩] := by
      have := he1.symm.trans hc1
      injection this
    rw [← h2]
    exact hl1
  · rw [he2]
    have h2 : PRResponse.ok e2 =
        .ok [(⟨"Infection",
          recommend_from_complication fallback_med_map "Infection",
          none⟩ : PREntry),
          ⟨"Infection",
          recommend_from_complication fallback_med_map "Infection", none⟩] :=
      he2.symm.trans (by simp [predictRecommendEndpoint, validate_and_build_df,
        demoModel, buildPREntries_nones])
    exact h2

/-- C8: a body that is neither an object nor an array is rejected by the
coercion's ValueError and surfaced by `/predict` as the HTTP 400 error
response carrying the message; every coercion or inference failure is caught
at the handler boundary the same way, and the handler — a total function —
only ever answers with status 200 or 400. -/
theorem predict_error_handling (m : Model) (payload : Json) :
    (nonTabular payload = true →
      validate_and_build_df payload =
        .error "Payload must be a JSON object or array of objects." ∧
      predictEndpoint m payload =
        .err "Payload must be a JSON object or array of objects." ∧
      (predictEndpoint m payload).statusCode = 400) ∧
    (∀ e, validate_and_build_df payload = .error e →
      predictEndpoint m payload = .err e ∧
      (predictEndpoint m payload).statusCode = 400) ∧
    (∀ df e, validate_and_build_df payload = .ok df → m.predict df = .error e →
      predictEndpoint m payload = .err e ∧
      (predictEndpoint m payload).statusCode = 400) ∧
    ((predictEndpoint m payload).statusCode = 200 ∨
      (predictEndpoint m payload).statusCode = 400) := by
  refine ⟨fun ht => ?_, fun e he => ?_, fun df e hdf hp => ?_, ?_⟩
  · cases payload <;>
      simp_all [nonTabular, validate_and_build_df, predictEndpoint,
        PredictResponse.statusCode]
  · constructor <;> simp [predictEndpoint, he, PredictResponse.statusCode]
  · constructor <;> simp [predictEndpoint, hdf, hp, PredictResponse.statusCode]
  · cases h : predictEndpoint m payload with
    | ok entries => exact Or.inl rfl
    | err e => exact Or.inr rfl

/-- Witness for C8 at the bare-number body 5. -/
theorem predict_error_handling_witness :
    validate_and_build_df (Json.num 5) =
      .error "Payload must be a JSON object or array of objects." ∧
    predictEndpoint demoModel (Json.num 5) =
      .err "Payload must be a JSON object or array of objects." ∧
    (predictEndpoint demoModel (Json.num 5)).statusCode = 400 :=
  (predict_error_handling demoModel (Json.num 5)).1 rfl

/-- C10: `/recommend` rejects every falsy body — empty object, empty array,
null, 0, false, "" — with the 400 ValueError "Empty request body", before
any Complication-key or shape inspection; `/predict` and
`/predict_recommend` instead pass the empty object through coercion as a
single all-null feature row handed to the model. -/
theorem falsy_body_handling (medMap : List MedRow) (m : Model)
    (payload : Json) :
    (jsonFalsy payload = true →
      recommendEndpoint medMap m payload = .err "Empty request body" ∧
      (recommendEndpoint medMap m payload).statusCode = 400) ∧
    (validate_and_build_df (Json.obj []) = .ok [buildRow []] ∧
      ∀ c ∈ EXPECTED_FEATURES, (c, (none : Option Json)) ∈ buildRow []) ∧
    (∀ e, m.predict [buildRow []] = .error e →
      predictEndpoint m (Json.obj []) = .err e) ∧
    (∀ preds, m.predict [buildRow []] = .ok preds →
      m.predict_proba [buildRow []] = none →
      predictEndpoint m (Json.obj []) = .ok (preds.map fun p => ⟨p, none⟩) ∧
      predictRecommendEndpoint medMap m (Json.obj []) =
        .ok (preds.map fun p =>
          ⟨p, recommend_from_complication medMap p, none⟩)) := by
  refine ⟨fun hf => ?_, ⟨rfl, ?_⟩, fun e he => ?_, fun preds hp hpr => ?_⟩
  · constructor <;> simp [recommendEndpoint, hf, RecResponse.statusCode]
  · intro c hc
    exact List.mem_map_of_mem (fun c => (c, jsonGet [] c)) hc
  · simp [predictEndpoint, validate_and_build_df, he]
  · constructor
    · simp [predictEndpoint, validate_and_build_df, hp, hpr,
        buildPredEntries_nones]
    · simp [predictRecommendEndpoint, validate_and_build_df, hp, hpr,
        buildPREntries_nones]

/-- Witness for C10: three falsy bodies are rejected identically, while the
empty object reaches the model on the other two endpoints. -/
theorem falsy_body_handling_witness :
    recommendEndpoint fallback_med_map demoModel (Json.obj []) =
      .err "Empty request body" ∧
    recommendEndpoint fallback_med_map demoModel Json.null =
      .err "Empty request body" ∧
    recommendEndpoint fallback_med_map demoModel (Json.arr []) =
      .err "Empty request body" ∧
    predictEndpoint demoModel (Json.obj []) = .ok [⟨"Infection", none⟩] ∧
    predictRecommendEndpoint fallback_med_map demoModel (Json.obj []) =
      .ok [⟨"Infection",
        recommend_from_complication fallback_med_map "Infection", none⟩] := by
  refine ⟨((falsy_body_handling fallback_med_map demoModel (Json.obj [])).1
      rfl).1,
    ((falsy_body_handling fallback_med_map demoModel Json.null).1 rfl).1,
    ((falsy_body_handling fallback_med_map demoModel (Json.arr [])).1 rfl).1,
    ?_, ?_⟩
  · have h := ((falsy_body_handling fallback_med_map demoModel
      (Json.obj [])).2.2.2 ["Infection"] rfl rfl).1
    simpa using h
  · have h := ((falsy_body_handling fallback_med_map demoModel
      (Json.obj [])).2.2.2 ["Infection"] rfl rfl).2
    simpa using h

end MedBackend
